import Mathlib

/-!
# Verification of the rust-form component generator

Shallow embedding of `src/tools/component_generator.py`.  Template renderers
are pure string functions; the scaffolder and the command surface are modelled
as functions from an explicit filesystem state to `Except` (a Python exception
becomes `Except.error`).  Paths are lists of segments; `components/auth/x` is
`["components", "auth", "x"]`.  Multi-line Python f-strings are transcribed
line by line (`..._lines` definitions) and joined with `joinLines`, which
matches the newline placement of the triple-quoted literals.  The current
date read by `datetime.now().strftime("%Y-%m-%d")` in `create_changelog` is
threaded through as an explicit `today` argument.

Note: the Python source writes `\\n` (an escaped backslash) inside several
f-strings (the doc stubs, the `list-categories` header lines and the final
celebration line), so those strings contain a literal backslash followed by
`n`, not a newline; the transcription below preserves that.
-/

namespace RustForm

/-- Python `str.title()` (ASCII model): a letter that follows a non-letter is
uppercased, a letter that follows a letter is lowercased, other characters are
kept; the Boolean argument records whether the previous character was a
letter (a "cased" character). -/
def pyTitleAux : Bool → List Char → List Char
  | _, [] => []
  | prevCased, c :: cs =>
    if c.isAlpha then
      (if prevCased then c.toLower else c.toUpper) :: pyTitleAux true cs
    else
      c :: pyTitleAux false cs

/-- Python `str.title()` on a string (ASCII model). -/
def pyTitle (s : String) : String := ⟨pyTitleAux false s.data⟩

/-- Python `str.upper()` (ASCII model). -/
def pyUpper (s : String) : String := ⟨s.data.map Char.toUpper⟩

/-- Python `s.replace(old, new)` for a one-character pattern `old` (every use
in the source replaces the single character `"-"`). -/
def pyReplaceCharAux (old : Char) (new : List Char) : List Char → List Char
  | [] => []
  | c :: cs =>
    if c = old then new ++ pyReplaceCharAux old new cs
    else c :: pyReplaceCharAux old new cs

/-- Python `s.replace(old, new)` with a one-character pattern. -/
def pyReplaceChar (s : String) (old : Char) (new : String) : String :=
  ⟨pyReplaceCharAux old new.data s.data⟩

/-- Join lines with `"\n"`; `joinLines [a, b, ""]` is `a ++ "\n" ++ b ++ "\n"`,
matching a Python triple-quoted literal that ends with a newline. -/
def joinLines : List String → String
  | [] => ""
  | [l] => l
  | l :: ls => l ++ "\n" ++ joinLines ls

/-- A path in the modelled filesystem: a list of segments. -/
abbrev FsPath := List String

/-- Filesystem state: the set (list) of existing directories, and the files as
an association list from path to content. -/
structure FS where
  dirs : List FsPath
  files : List (FsPath × String)
deriving Repr, DecidableEq

/-- The empty filesystem. -/
def FS.empty : FS := ⟨[], []⟩

/-- The nonempty prefixes of a path, shortest first:
`prefixesOf [a,b] = [[a],[a,b]]`. -/
def prefixesOf : List String → List FsPath
  | [] => []
  | s :: rest => [s] :: (prefixesOf rest).map (fun p => s :: p)

/-- Parent of a path (`[]` for the empty or one-segment path). -/
def parentPath : FsPath → FsPath
  | [] => []
  | [_] => []
  | s :: rest => s :: parentPath rest

/-- Record a directory if it is not already present. -/
def addDir (fs : FS) (p : FsPath) : FS :=
  if p ∈ fs.dirs then fs else ⟨fs.dirs ++ [p], fs.files⟩

/-- Create a chain of directories one by one; creating a directory at a path
where a file exists is an error (Python `FileExistsError`). -/
def mkdirsAux (fs : FS) : List FsPath → Except String FS
  | [] => Except.ok fs
  | q :: rest =>
    if q ∈ fs.files.map Prod.fst then
      Except.error "FileExistsError: file exists at directory path"
    else mkdirsAux (addDir fs q) rest

/-- `Path.mkdir(parents=True, exist_ok=True)`: ensure the path and every
ancestor exists as a directory. -/
def mkdirParents (fs : FS) (p : FsPath) : Except String FS :=
  mkdirsAux fs (prefixesOf p)

/-- Overwrite-or-insert into the file association list. -/
def setFile : List (FsPath × String) → FsPath → String → List (FsPath × String)
  | [], p, c => [(p, c)]
  | (q, d) :: rest, p, c =>
    if q = p then (q, c) :: rest else (q, d) :: setFile rest p c

/-- `open(path, 'w')` followed by `write`: error if the path is a directory
or its parent directory does not exist; otherwise replace or create. -/
def writeFile (fs : FS) (p : FsPath) (c : String) : Except String FS :=
  if p ∈ fs.dirs then Except.error "IsADirectoryError"
  else if parentPath p = [] ∨ parentPath p ∈ fs.dirs then
    Except.ok ⟨fs.dirs, setFile fs.files p c⟩
  else Except.error "FileNotFoundError: missing parent directory"

/-- Write a list of `(relative path, content)` pairs under a base path. -/
def writeAll (fs : FS) (base : FsPath) : List (FsPath × String) → Except String FS
  | [] => Except.ok fs
  | (rel, content) :: rest =>
    match writeFile fs (base ++ rel) content with
    | Except.error e => Except.error e
    | Except.ok fs' => writeAll fs' base rest

/-- One entry of the category registry. -/
structure CategoryInfo where
  description : String
  examples : List String
deriving Repr, DecidableEq

/-- `COMPONENT_CATEGORIES` (source lines 15-48), in dict insertion order. -/
def COMPONENT_CATEGORIES : List (String × CategoryInfo) :=
  [("auth",
    ⟨"Authentication and authorization components",
     ["jwt-authentication", "oauth2-providers", "role-based-access"]⟩),
   ("payments",
    ⟨"Payment processing and billing components",
     ["stripe-integration", "subscription-billing", "invoice-generation"]⟩),
   ("dashboard",
    ⟨"Dashboard, analytics and monitoring components",
     ["admin-dashboard", "analytics-widgets", "real-time-metrics"]⟩),
   ("ecommerce",
    ⟨"E-commerce and marketplace components",
     ["product-catalog", "shopping-cart", "order-management"]⟩),
   ("communication",
    ⟨"Communication and messaging components",
     ["email-templates", "chat-system", "push-notifications"]⟩),
   ("cms",
    ⟨"Content management system components",
     ["blog-system", "page-builder", "media-management"]⟩),
   ("ui",
    ⟨"User interface and design system components",
     ["design-system", "form-builders", "data-tables"]⟩),
   ("integrations",
    ⟨"Third-party service integrations",
     ["google-analytics", "social-media-apis", "crm-integrations"]⟩)]

/-- The registered category keys, in order. -/
def categoryKeys : List String := COMPONENT_CATEGORIES.map Prod.fst

/-- Lines of `create_component_manifest_yaml` (source lines 50-93); the
rendered manifest is these lines joined with newlines, with no trailing
newline. -/
def create_component_manifest_yaml_lines
    (name category description author : String) : List String :=
  let titleN := pyTitle name
  ["name: " ++ name,
   "version: \"1.0.0\"",
   "description: \"" ++ description ++ "\"",
   "author: " ++ author,
   "homepage: \"https://github.com/rust-form/" ++ name ++ "\"",
   "keywords:",
   "  - " ++ category,
   "  - rust-form",
   "  - component",
   "",
   "api_compatibility:",
   "  api_version: \"0.1.0\"",
   "  min_version: \"0.1.0\"",
   "  max_version: \"0.2.0\"",
   "  experimental: false",
   "",
   "dependencies: \x7b\x7d",
   "",
   "files:",
   "  - \"handlers.rs.tera\"",
   "  - \"models.rs.tera\"",
   "  - \"middleware.rs.tera\"",
   "",
   "provides:",
   "  templates:",
   "    - name: \"handlers.rs.tera\"",
   "      path: \"handlers.rs.tera\"",
   "      description: \"" ++ titleN ++ " request handlers\"",
   "      variables: []",
   "      target: Backend",
   "    - name: \"models.rs.tera\"",
   "      path: \"models.rs.tera\"",
   "      description: \"" ++ titleN ++ " data models\"",
   "      variables: []",
   "      target: Backend",
   "    - name: \"middleware.rs.tera\"",
   "      path: \"middleware.rs.tera\"",
   "      description: \"" ++ titleN ++ " middleware\"",
   "      variables: []",
   "      target: Backend",
   "  assets: []",
   "  hooks: []"]

/-- `create_component_manifest_yaml` (source lines 50-93).  The Python
signature has a default `author="rust-form"`; every caller uses the
default. -/
def create_component_manifest_yaml
    (name category description author : String) : String :=
  joinLines (create_component_manifest_yaml_lines name category description author)

/-- Lines of `create_handlers_template` (source lines 95-167).  In the
template, `{name.title().replace("-", "")}` is the PascalCase form,
`{name.replace("-", "_")}` the snake form, `{name.replace("-", " ")}` the
spaced form; `{{`/`}}` render as literal braces and `{{id}}` renders as the
literal text `{id}`.  The trailing empty line records the final newline of
the triple-quoted literal. -/
def create_handlers_template_lines (name category : String) : List String :=
  let pascalN := pyReplaceChar (pyTitle name) '-' ""
  let snakeN := pyReplaceChar name '-' "_"
  let spacedN := pyReplaceChar name '-' " "
  ["use axum::\x7b",
   "    extract::\x7bPath, Query, State\x7d,",
   "    http::StatusCode,",
   "    response::Json,",
   "    routing::\x7bget, post, put, delete\x7d,",
   "    Router,",
   "\x7d;",
   "use serde::\x7bDeserialize, Serialize\x7d;",
   "use sqlx::SqlitePool;",
   "",
   "use crate::\x7bmodels::*, error::*\x7d;",
   "",
   "#[derive(Debug, Serialize, Deserialize)]",
   "pub struct " ++ pascalN ++ "Request \x7b",
   "    // Add request fields here",
   "    pub name: String,",
   "\x7d",
   "",
   "#[derive(Debug, Serialize, Deserialize)]",
   "pub struct " ++ pascalN ++ "Response \x7b",
   "    pub id: i64,",
   "    pub name: String,",
   "    pub created_at: chrono::DateTime<chrono::Utc>,",
   "\x7d",
   "",
   "/// Create new " ++ spacedN,
   "pub async fn create_" ++ snakeN ++ "(",
   "    State(pool): State<SqlitePool>,",
   "    Json(request): Json<" ++ pascalN ++ "Request>,",
   ") -> Result<Json<" ++ pascalN ++ "Response>, AppError> \x7b",
   "    // Implementation here",
   "    todo!(\"Implement " ++ name ++ " creation\")",
   "\x7d",
   "",
   "/// Get " ++ spacedN ++ " by ID",
   "pub async fn get_" ++ snakeN ++ "_by_id(",
   "    State(pool): State<SqlitePool>,",
   "    Path(id): Path<i64>,",
   ") -> Result<Json<" ++ pascalN ++ "Response>, AppError> \x7b",
   "    // Implementation here",
   "    todo!(\"Implement " ++ name ++ " retrieval\")",
   "\x7d",
   "",
   "/// Update " ++ spacedN,
   "pub async fn update_" ++ snakeN ++ "(",
   "    State(pool): State<SqlitePool>,",
   "    Path(id): Path<i64>,",
   "    Json(request): Json<" ++ pascalN ++ "Request>,",
   ") -> Result<Json<" ++ pascalN ++ "Response>, AppError> \x7b",
   "    // Implementation here",
   "    todo!(\"Implement " ++ name ++ " update\")",
   "\x7d",
   "",
   "/// Delete " ++ spacedN,
   "pub async fn delete_" ++ snakeN ++ "(",
   "    State(pool): State<SqlitePool>,",
   "    Path(id): Path<i64>,",
   ") -> Result<StatusCode, AppError> \x7b",
   "    // Implementation here",
   "    todo!(\"Implement " ++ name ++ " deletion\")",
   "\x7d",
   "",
   "/// Get " ++ spacedN ++ " routes",
   "pub fn " ++ snakeN ++ "_routes() -> Router<SqlitePool> \x7b",
   "    Router::new()",
   "        .route(\"/" ++ snakeN ++ "\", post(create_" ++ snakeN ++ "))",
   "        .route(\"/" ++ snakeN ++ "/\x7bid\x7d\", get(get_" ++ snakeN ++ "_by_id))",
   "        .route(\"/" ++ snakeN ++ "/\x7bid\x7d\", put(update_" ++ snakeN ++ "))",
   "        .route(\"/" ++ snakeN ++ "/\x7bid\x7d\", delete(delete_" ++ snakeN ++ "))",
   "\x7d",
   ""]

/-- `create_handlers_template` (source lines 95-167). -/
def create_handlers_template (name category : String) : String :=
  joinLines (create_handlers_template_lines name category)

/-- Lines of `create_models_template` (source lines 169-266). -/
def create_models_template_lines (name category : String) : List String :=
  let pascalN := pyReplaceChar (pyTitle name) '-' ""
  let snakeN := pyReplaceChar name '-' "_"
  let spacedN := pyReplaceChar name '-' " "
  ["use serde::\x7bDeserialize, Serialize\x7d;",
   "use sqlx::\x7bFromRow, SqlitePool\x7d;",
   "use chrono::\x7bDateTime, Utc\x7d;",
   "",
   "#[derive(Debug, Clone, Serialize, Deserialize, FromRow)]",
   "pub struct " ++ pascalN ++ " \x7b",
   "    pub id: i64,",
   "    pub name: String,",
   "    pub created_at: DateTime<Utc>,",
   "    pub updated_at: DateTime<Utc>,",
   "\x7d",
   "",
   "impl " ++ pascalN ++ " \x7b",
   "    /// Create a new " ++ spacedN,
   "    pub async fn create(",
   "        pool: &SqlitePool,",
   "        name: String,",
   "    ) -> Result<Self, sqlx::Error> \x7b",
   "        let row = sqlx::query_as!(",
   "            Self,",
   "            r#\"",
   "            INSERT INTO " ++ snakeN ++ " (name, created_at, updated_at)",
   "            VALUES (?1, ?2, ?2)",
   "            RETURNING id, name, created_at, updated_at",
   "            \"#,",
   "            name,",
   "            Utc::now()",
   "        )",
   "        .fetch_one(pool)",
   "        .await?;",
   "",
   "        Ok(row)",
   "    \x7d",
   "",
   "    /// Find " ++ spacedN ++ " by ID",
   "    pub async fn find_by_id(",
   "        pool: &SqlitePool,",
   "        id: i64,",
   "    ) -> Result<Option<Self>, sqlx::Error> \x7b",
   "        let row = sqlx::query_as!(",
   "            Self,",
   "            \"SELECT id, name, created_at, updated_at FROM " ++ snakeN ++ " WHERE id = ?1\",",
   "            id",
   "        )",
   "        .fetch_optional(pool)",
   "        .await?;",
   "",
   "        Ok(row)",
   "    \x7d",
   "",
   "    /// Update " ++ spacedN,
   "    pub async fn update(",
   "        &mut self,",
   "        pool: &SqlitePool,",
   "        name: String,",
   "    ) -> Result<(), sqlx::Error> \x7b",
   "        sqlx::query!(",
   "            r#\"",
   "            UPDATE " ++ snakeN,
   "            SET name = ?1, updated_at = ?2",
   "            WHERE id = ?3",
   "            \"#,",
   "            name,",
   "            Utc::now(),",
   "            self.id",
   "        )",
   "        .execute(pool)",
   "        .await?;",
   "",
   "        self.name = name;",
   "        self.updated_at = Utc::now();",
   "        Ok(())",
   "    \x7d",
   "",
   "    /// Delete " ++ spacedN,
   "    pub async fn delete(pool: &SqlitePool, id: i64) -> Result<u64, sqlx::Error> \x7b",
   "        let result = sqlx::query!(\"DELETE FROM " ++ snakeN ++ " WHERE id = ?1\", id)",
   "            .execute(pool)",
   "            .await?;",
   "",
   "        Ok(result.rows_affected())",
   "    \x7d",
   "",
   "    /// List all " ++ spacedN ++ "s",
   "    pub async fn list(pool: &SqlitePool) -> Result<Vec<Self>, sqlx::Error> \x7b",
   "        let rows = sqlx::query_as!(",
   "            Self,",
   "            \"SELECT id, name, created_at, updated_at FROM " ++ snakeN ++ " ORDER BY created_at DESC\"",
   "        )",
   "        .fetch_all(pool)",
   "        .await?;",
   "",
   "        Ok(rows)",
   "    \x7d",
   "\x7d",
   ""]

/-- `create_models_template` (source lines 169-266). -/
def create_models_template (name category : String) : String :=
  joinLines (create_models_template_lines name category)

/-- Lines of `create_middleware_template` (source lines 268-329).  Several
lines of the Python literal consist of four trailing spaces; they are kept
verbatim. -/
def create_middleware_template_lines (name category : String) : List String :=
  let titleSpacedN := pyReplaceChar (pyTitle name) '-' " "
  let snakeN := pyReplaceChar name '-' "_"
  ["use axum::\x7b",
   "    extract::Request,",
   "    http::\x7bHeaderMap, StatusCode\x7d,",
   "    middleware::Next,",
   "    response::Response,",
   "\x7d;",
   "use tracing::\x7binfo, warn\x7d;",
   "",
   "/// " ++ titleSpacedN ++ " middleware",
   "pub async fn " ++ snakeN ++ "_middleware(",
   "    headers: HeaderMap,",
   "    request: Request,",
   "    next: Next,",
   ") -> Result<Response, StatusCode> \x7b",
   "    info!(\"Processing request through " ++ name ++ " middleware\");",
   "    ",
   "    // Add " ++ name ++ " specific middleware logic here",
   "    // Examples:",
   "    // - Authentication validation",
   "    // - Rate limiting",
   "    // - Request/response transformation",
   "    // - Logging and metrics",
   "    ",
   "    let response = next.run(request).await;",
   "    ",
   "    info!(\"Completed " ++ name ++ " middleware processing\");",
   "    Ok(response)",
   "\x7d",
   "",
   "/// " ++ titleSpacedN ++ " validation middleware",
   "pub async fn validate_" ++ snakeN ++ "_request(",
   "    request: Request,",
   "    next: Next,",
   ") -> Result<Response, StatusCode> \x7b",
   "    // Add request validation logic here",
   "    // Examples:",
   "    // - Schema validation",
   "    // - Business rule validation",
   "    // - Security checks",
   "    ",
   "    let response = next.run(request).await;",
   "    Ok(response)",
   "\x7d",
   "",
   "/// " ++ titleSpacedN ++ " logging middleware",
   "pub async fn log_" ++ snakeN ++ "_activity(",
   "    request: Request,",
   "    next: Next,",
   ") -> Result<Response, StatusCode> \x7b",
   "    let method = request.method().clone();",
   "    let uri = request.uri().clone();",
   "    ",
   "    info!(\"\x7b\x7d \x7b\x7d - " ++ name ++ " activity\", method, uri);",
   "    ",
   "    let response = next.run(request).await;",
   "    ",
   "    info!(\"Response status: \x7b\x7d\", response.status());",
   "    Ok(response)",
   "\x7d",
   ""]

/-- `create_middleware_template` (source lines 268-329). -/
def create_middleware_template (name category : String) : String :=
  joinLines (create_middleware_template_lines name category)

/-- Lines of `create_test_template` (source lines 331-387). -/
def create_test_template_lines (name category : String) : List String :=
  let titleSpacedN := pyReplaceChar (pyTitle name) '-' " "
  let snakeN := pyReplaceChar name '-' "_"
  ["#[cfg(test)]",
   "mod " ++ snakeN ++ "_tests \x7b",
   "    use super::*;",
   "    use std::collections::HashMap;",
   "",
   "    #[test]",
   "    fn test_" ++ snakeN ++ "_creation() \x7b",
   "        // Test " ++ name ++ " creation logic",
   "        assert!(true, \"" ++ titleSpacedN ++ " creation should work\");",
   "    \x7d",
   "",
   "    #[test]",
   "    fn test_" ++ snakeN ++ "_validation() \x7b",
   "        // Test " ++ name ++ " validation logic",
   "        assert!(true, \"" ++ titleSpacedN ++ " validation should work\");",
   "    \x7d",
   "",
   "    #[test]",
   "    fn test_" ++ snakeN ++ "_configuration() \x7b",
   "        // Test " ++ name ++ " configuration",
   "        let config = HashMap::new();",
   "        assert!(config.is_empty(), \"Empty config should be valid\");",
   "    \x7d",
   "",
   "    #[test]",
   "    fn test_" ++ snakeN ++ "_integration() \x7b",
   "        // Test " ++ name ++ " integration with other components",
   "        assert!(true, \"" ++ titleSpacedN ++ " should integrate properly\");",
   "    \x7d",
   "",
   "    #[test]",
   "    fn test_" ++ snakeN ++ "_error_handling() \x7b",
   "        // Test " ++ name ++ " error handling",
   "        assert!(true, \"" ++ titleSpacedN ++ " should handle errors gracefully\");",
   "    \x7d",
   "",
   "    #[test]",
   "    fn test_" ++ snakeN ++ "_performance() \x7b",
   "        // Test " ++ name ++ " performance characteristics",
   "        assert!(true, \"" ++ titleSpacedN ++ " should perform well\");",
   "    \x7d",
   "",
   "    #[test]",
   "    fn test_" ++ snakeN ++ "_security() \x7b",
   "        // Test " ++ name ++ " security features",
   "        assert!(true, \"" ++ titleSpacedN ++ " should be secure\");",
   "    \x7d",
   "",
   "    #[test]",
   "    fn test_" ++ snakeN ++ "_compatibility() \x7b",
   "        // Test " ++ name ++ " API compatibility",
   "        assert!(true, \"" ++ titleSpacedN ++ " should be API compatible\");",
   "    \x7d",
   "\x7d",
   ""]

/-- `create_test_template` (source lines 331-387). -/
def create_test_template (name category : String) : String :=
  joinLines (create_test_template_lines name category)

/-- Lines of `create_readme` (source lines 389-510). -/
def create_readme_lines (name category description : String) : List String :=
  let titleSpacedN := pyReplaceChar (pyTitle name) '-' " "
  let pascalN := pyReplaceChar (pyTitle name) '-' ""
  let snakeN := pyReplaceChar name '-' "_"
  let spacedN := pyReplaceChar name '-' " "
  ["# " ++ titleSpacedN ++ " Component",
   "",
   description,
   "",
   "## Category",
   pyTitle category,
   "",
   "## Features",
   "- Feature 1: Core " ++ spacedN ++ " functionality",
   "- Feature 2: Advanced " ++ spacedN ++ " configuration",
   "- Feature 3: Integration with rust-form ecosystem",
   "- Feature 4: Comprehensive error handling",
   "- Feature 5: Security best practices",
   "",
   "## Installation",
   "",
   "Add this component to your rust-form project:",
   "",
   "```yaml",
   "components:",
   "  " ++ name ++ ": \"path:./components/" ++ category ++ "/" ++ name ++ "\"",
   "```",
   "",
   "## Configuration",
   "",
   "### Basic Usage",
   "",
   "```yaml",
   "project_name: my_app",
   "version: \"0.1.0\"",
   "",
   "components:",
   "  " ++ name ++ ": \"path:./components/" ++ category ++ "/" ++ name ++ "\"",
   "",
   "api:",
   "  models:",
   "    MyModel:",
   "      table_name: my_models",
   "      fields:",
   "        id:",
   "          type: integer",
   "          primary_key: true",
   "          auto_increment: true",
   "        name:",
   "          type: string",
   "          required: true",
   "",
   "  endpoints:",
   "    - path: /my-models",
   "      model: MyModel",
   "      crud:",
   "        create: true",
   "        read_all: true",
   "        read_one: true",
   "        update: true",
   "        delete: true",
   "```",
   "",
   "### Advanced Configuration",
   "",
   "```yaml",
   "# Add advanced configuration examples here",
   name ++ "_settings:",
   "  feature_enabled: true",
   "  custom_options:",
   "    option1: \"value1\"",
   "    option2: \"value2\"",
   "```",
   "",
   "## API Reference",
   "",
   "### Handlers",
   "- `create_" ++ snakeN ++ "`: Create new " ++ spacedN,
   "- `get_" ++ snakeN ++ "_by_id`: Retrieve " ++ spacedN ++ " by ID",
   "- `update_" ++ snakeN ++ "`: Update existing " ++ spacedN,
   "- `delete_" ++ snakeN ++ "`: Delete " ++ spacedN,
   "",
   "### Models",
   "- `" ++ pascalN ++ "`: Main data model for " ++ spacedN,
   "",
   "### Middleware",
   "- `" ++ snakeN ++ "_middleware`: Core " ++ spacedN ++ " middleware",
   "- `validate_" ++ snakeN ++ "_request`: Request validation",
   "- `log_" ++ snakeN ++ "_activity`: Activity logging",
   "",
   "## Examples",
   "",
   "See the `examples/` directory for complete usage examples:",
   "- `examples/basic-usage.yml`: Simple setup",
   "- `examples/advanced-config.yml`: Advanced configuration",
   "- `examples/integration-test.yml`: Integration testing",
   "",
   "## Testing",
   "",
   "Run component tests:",
   "",
   "```bash",
   "rustform component test components/" ++ category ++ "/" ++ name,
   "```",
   "",
   "## Contributing",
   "",
   "1. Fork the repository",
   "2. Create a feature branch",
   "3. Add tests for new functionality",
   "4. Ensure all tests pass",
   "5. Submit a pull request",
   "",
   "## License",
   "",
   "MIT License - see LICENSE file for details",
   "",
   "## Changelog",
   "",
   "### v1.0.0",
   "- Initial release",
   "- Core " ++ spacedN ++ " functionality",
   "- Basic integration with rust-form",
   "- Comprehensive test suite",
   ""]

/-- `create_readme` (source lines 389-510). -/
def create_readme (name category description : String) : String :=
  joinLines (create_readme_lines name category description)

/-- Lines of `create_cargo_toml` (source lines 512-527). -/
def create_cargo_toml_lines (name : String) : List String :=
  let titleSpacedN := pyReplaceChar (pyTitle name) '-' " "
  let snakeN := pyReplaceChar name '-' "_"
  ["[package]",
   "name = \"" ++ name ++ "\"",
   "version = \"1.0.0\"",
   "edition = \"2021\"",
   "description = \"" ++ titleSpacedN ++ " component for rust-form\"",
   "",
   "[workspace]",
   "",
   "[lib]",
   "name = \"" ++ snakeN ++ "\"",
   "path = \"src/lib_test.rs\"",
   "",
   "[dependencies]",
   ""]

/-- `create_cargo_toml` (source lines 512-527). -/
def create_cargo_toml (name : String) : String :=
  joinLines (create_cargo_toml_lines name)

/-- Lines of `create_changelog` (source lines 529-556); `today` is the value
of `datetime.now().strftime("%Y-%m-%d")`, passed in explicitly. -/
def create_changelog_lines (name today : String) : List String :=
  let titleSpacedN := pyReplaceChar (pyTitle name) '-' " "
  ["# Changelog",
   "",
   "All notable changes to the " ++ titleSpacedN ++ " component will be documented in this file.",
   "",
   "The format is based on [Keep a Changelog](https://keepachangelog.com/en/1.0.0/),",
   "and this project adheres to [Semantic Versioning](https://semver.org/spec/v2.0.0.html).",
   "",
   "## [1.0.0] - " ++ today,
   "",
   "### Added",
   "- Initial release of " ++ titleSpacedN ++ " component",
   "- Core functionality implementation",
   "- Request handlers for CRUD operations",
   "- Data models with SQLx integration",
   "- Middleware for request processing",
   "- Comprehensive test suite",
   "- Documentation and examples",
   "- Integration with rust-form ecosystem",
   "",
   "### Security",
   "- Input validation and sanitization",
   "- SQL injection prevention",
   "- Authentication and authorization hooks",
   "- Secure error handling",
   ""]

/-- `create_changelog` (source lines 529-556). -/
def create_changelog (name today : String) : String :=
  joinLines (create_changelog_lines name today)

/-- Lines of the `examples/basic-usage.yml` content (source lines 595-626). -/
def basic_usage_lines (name category : String) : List String :=
  let snakeN := pyReplaceChar name '-' "_"
  ["# Basic usage example for " ++ name,
   "project_name: " ++ snakeN ++ "_example",
   "version: \"0.1.0\"",
   "",
   "components:",
   "  " ++ name ++ ": \"path:../../../" ++ category ++ "/" ++ name ++ "\"",
   "",
   "database:",
   "  type: sqlite",
   "  url_env: DATABASE_URL",
   "",
   "api:",
   "  models:",
   "    Example:",
   "      table_name: examples",
   "      fields:",
   "        id:",
   "          type: integer",
   "          primary_key: true",
   "          auto_increment: true",
   "        name:",
   "          type: string",
   "          required: true",
   "",
   "  endpoints:",
   "    - path: /examples",
   "      model: Example",
   "      crud:",
   "        create: true",
   "        read_all: true",
   "        read_one: true",
   ""]

/-- Lines of the `examples/advanced-config.yml` content (source lines
627-635). -/
def advanced_config_lines (name category : String) : List String :=
  let snakeN := pyReplaceChar name '-' "_"
  ["# Advanced configuration example for " ++ name,
   "project_name: " ++ snakeN ++ "_advanced",
   "version: \"0.1.0\"",
   "",
   "components:",
   "  " ++ name ++ ": \"path:../../../" ++ category ++ "/" ++ name ++ "\"",
   "",
   "# Add advanced configuration here",
   ""]

/-- Lines of the `examples/integration-test.yml` content (source lines
636-644). -/
def integration_test_lines (name category : String) : List String :=
  let snakeN := pyReplaceChar name '-' "_"
  ["# Integration test example for " ++ name,
   "project_name: " ++ snakeN ++ "_integration_test",
   "version: \"0.1.0\"",
   "",
   "components:",
   "  " ++ name ++ ": \"path:../../../" ++ category ++ "/" ++ name ++ "\"",
   "",
   "# Add integration test configuration here",
   ""]

/-- The `docs/*.md` contents (source lines 653-658).  These Python f-strings
contain the two-character sequence backslash-`n` (written `\\n` in the
source), not a newline, so each doc stub is a single line. -/
def docs_installation (name : String) : String :=
  "# " ++ pyReplaceChar (pyTitle name) '-' " " ++
    " Installation Guide\\n\\nDetailed installation instructions..."

def docs_configuration (name : String) : String :=
  "# " ++ pyReplaceChar (pyTitle name) '-' " " ++
    " Configuration\\n\\nConfiguration options and examples..."

def docs_api_reference (name : String) : String :=
  "# " ++ pyReplaceChar (pyTitle name) '-' " " ++
    " API Reference\\n\\nComplete API documentation..."

def docs_migration_guide (name : String) : String :=
  "# " ++ pyReplaceChar (pyTitle name) '-' " " ++
    " Migration Guide\\n\\nUpgrade and migration instructions..."

/-- `generate_component` (source lines 558-667).  Returns the updated
filesystem and the printed lines; a Python `OSError` becomes
`Except.error`.  `base_path` defaults to `"components"` in Python; callers
pass it explicitly here.  `today` is the changelog date. -/
def generate_component (name category description base_path today : String)
    (fs : FS) : Except String (FS × List String) := do
  let component_path : FsPath := [base_path, category, name]
  let fs ← mkdirParents fs component_path
  let fs ← mkdirParents fs (component_path ++ ["src"])
  let fs ← mkdirParents fs (component_path ++ ["frontend", "components"])
  let fs ← mkdirParents fs (component_path ++ ["frontend", "hooks"])
  let fs ← mkdirParents fs (component_path ++ ["frontend", "types"])
  let fs ← mkdirParents fs (component_path ++ ["examples"])
  let fs ← mkdirParents fs (component_path ++ ["docs"])
  let fs ← mkdirParents fs (component_path ++ ["assets", "icons"])
  let fs ← mkdirParents fs (component_path ++ ["assets", "styles"])
  let fs ← mkdirParents fs (component_path ++ ["assets", "images"])
  let files_to_create : List (FsPath × String) :=
    [(["rustform-component.yml"],
      create_component_manifest_yaml name category description "rust-form"),
     (["README.md"], create_readme name category description),
     (["CHANGELOG.md"], create_changelog name today),
     (["Cargo.toml"], create_cargo_toml name),
     (["handlers.rs.tera"], create_handlers_template name category),
     (["models.rs.tera"], create_models_template name category),
     (["middleware.rs.tera"], create_middleware_template name category),
     (["src", "lib_test.rs"], create_test_template name category)]
  let examples : List (FsPath × String) :=
    [(["examples", "basic-usage.yml"], joinLines (basic_usage_lines name category)),
     (["examples", "advanced-config.yml"], joinLines (advanced_config_lines name category)),
     (["examples", "integration-test.yml"], joinLines (integration_test_lines name category))]
  let docs : List (FsPath × String) :=
    [(["docs", "installation.md"], docs_installation name),
     (["docs", "configuration.md"], docs_configuration name),
     (["docs", "api-reference.md"], docs_api_reference name),
     (["docs", "migration-guide.md"], docs_migration_guide name)]
  let fs ← writeAll fs component_path files_to_create
  let fs ← writeAll fs component_path examples
  let fs ← writeAll fs component_path docs
  Except.ok (fs,
    ["✅ Generated component: " ++ category ++ "/" ++ name,
     "   Path: " ++ String.intercalate "/" component_path,
     "   Files: " ++
       toString (files_to_create.length + examples.length + docs.length) ++
       " files created"])

/-- The default description generated in `generate_category_batch`
(source line 674) and in `main` (source line 715). -/
def default_description (name category : String) : String :=
  pyReplaceChar (pyTitle name) '-' " " ++ " component for " ++ category ++
    " functionality"

/-- The loop of `generate_category_batch` (source lines 673-675): one
`generate_component` call per name, in order, threading the filesystem and
collecting the printed lines. -/
def batchLoop (category base_path today : String) (fs : FS) :
    List String → Except String (FS × List String)
  | [] => Except.ok (fs, [])
  | n :: rest => do
    let (fs', out) ←
      generate_component n category (default_description n category)
        base_path today fs
    let (fs'', outs) ← batchLoop category base_path today fs' rest
    Except.ok (fs'', out ++ outs)

/-- `generate_category_batch` (source lines 669-677). -/
def generate_category_batch (category : String) (components : List String)
    (base_path today : String) (fs : FS) : Except String (FS × List String) := do
  let (fs', outs) ← batchLoop category base_path today fs components
  Except.ok (fs',
    ("🚀 Generating " ++ toString components.length ++
      " components for category: " ++ category) :: outs ++
    ["✅ Completed " ++ category ++ " category - " ++
      toString components.length ++ " components generated"])

/-- The usage text printed when fewer than three argv entries are given
(source lines 682-690). -/
def usage_lines : List String :=
  ["Usage: python component_generator.py <category> <component-name> [description]",
   "       python component_generator.py batch <category> <component1,component2,...>",
   "       python component_generator.py list-categories",
   "",
   "Available categories:"] ++
  COMPONENT_CATEGORIES.flatMap (fun ci =>
    ["  " ++ ci.1 ++ ": " ++ ci.2.description,
     "    Examples: " ++ String.intercalate ", " (ci.2.examples.take 3)])

/-- The `list-categories` output (source lines 695-699).  The Python source
writes `\\n` in the header f-string, so each header line starts with a
literal backslash and `n`, not a blank line. -/
def list_categories_lines : List String :=
  "Available component categories:" ::
  COMPONENT_CATEGORIES.flatMap (fun ci =>
    ["\\n" ++ pyUpper ci.1 ++ ":",
     "  Description: " ++ ci.2.description,
     "  Examples: " ++ String.intercalate ", " ci.2.examples])

/-- The unknown-category diagnostic (source lines 706-707 and 718-719). -/
def unknown_category_lines (category : String) : List String :=
  ["Error: Unknown category \x27" ++ category ++ "\x27",
   "Available categories: " ++ String.intercalate ", " categoryKeys]

/-- `main` (source lines 679-724).  `argv` includes the program name at
index 0.  Accessing a missing `sys.argv[3]` in the batch branch raises
`IndexError`, modelled as `Except.error`. -/
def pyMain (argv : List String) (today : String) (fs : FS) :
    Except String (FS × List String) :=
  if argv.length < 3 then Except.ok (fs, usage_lines)
  else
    let command := argv.getD 1 ""
    if command = "list-categories" then Except.ok (fs, list_categories_lines)
    else if command = "batch" then
      match argv.get? 3 with
      | none => Except.error "IndexError: list index out of range"
      | some namesArg =>
        let category := argv.getD 2 ""
        let components := namesArg.splitOn ","
        if category ∈ categoryKeys then
          generate_category_batch category components "components" today fs
        else Except.ok (fs, unknown_category_lines category)
    else
      let category := command
      let name := argv.getD 2 ""
      let description :=
        match argv.get? 3 with
        | some d => d
        | none => default_description name category
      if category ∈ categoryKeys then
        match generate_component name category description "components" today fs with
        | Except.error e => Except.error e
        | Except.ok (fs', out) =>
          Except.ok (fs', out ++
            ["\\n🎉 Component generated successfully!",
             "Run tests: rustform component test components/" ++ category ++
               "/" ++ name])
      else Except.ok (fs, unknown_category_lines category)

/-- The fifteen file paths created by `generate_component`, in write order
(cf. spec §6). -/
def componentFilePaths (base cat name : String) : List FsPath :=
  [[base, cat, name, "rustform-component.yml"],
   [base, cat, name, "README.md"],
   [base, cat, name, "CHANGELOG.md"],
   [base, cat, name, "Cargo.toml"],
   [base, cat, name, "handlers.rs.tera"],
   [base, cat, name, "models.rs.tera"],
   [base, cat, name, "middleware.rs.tera"],
   [base, cat, name, "src", "lib_test.rs"],
   [base, cat, name, "examples", "basic-usage.yml"],
   [base, cat, name, "examples", "advanced-config.yml"],
   [base, cat, name, "examples", "integration-test.yml"],
   [base, cat, name, "docs", "installation.md"],
   [base, cat, name, "docs", "configuration.md"],
   [base, cat, name, "docs", "api-reference.md"],
   [base, cat, name, "docs", "migration-guide.md"]]

/-- The directories created by `generate_component`, in creation order
(including ancestors). -/
def componentDirPaths (base cat name : String) : List FsPath :=
  [[base],
   [base, cat],
   [base, cat, name],
   [base, cat, name, "src"],
   [base, cat, name, "frontend"],
   [base, cat, name, "frontend", "components"],
   [base, cat, name, "frontend", "hooks"],
   [base, cat, name, "frontend", "types"],
   [base, cat, name, "examples"],
   [base, cat, name, "docs"],
   [base, cat, name, "assets"],
   [base, cat, name, "assets", "icons"],
   [base, cat, name, "assets", "styles"],
   [base, cat, name, "assets", "images"]]

/-- The files written by `generate_component`, as `(absolute path, content)`
pairs in write order. -/
def componentFiles (name cat desc base today : String) : List (FsPath × String) :=
  [([base, cat, name, "rustform-component.yml"],
    create_component_manifest_yaml name cat desc "rust-form"),
   ([base, cat, name, "README.md"], create_readme name cat desc),
   ([base, cat, name, "CHANGELOG.md"], create_changelog name today),
   ([base, cat, name, "Cargo.toml"], create_cargo_toml name),
   ([base, cat, name, "handlers.rs.tera"], create_handlers_template name cat),
   ([base, cat, name, "models.rs.tera"], create_models_template name cat),
   ([base, cat, name, "middleware.rs.tera"], create_middleware_template name cat),
   ([base, cat, name, "src", "lib_test.rs"], create_test_template name cat),
   ([base, cat, name, "examples", "basic-usage.yml"],
    joinLines (basic_usage_lines name cat)),
   ([base, cat, name, "examples", "advanced-config.yml"],
    joinLines (advanced_config_lines name cat)),
   ([base, cat, name, "examples", "integration-test.yml"],
    joinLines (integration_test_lines name cat)),
   ([base, cat, name, "docs", "installation.md"], docs_installation name),
   ([base, cat, name, "docs", "configuration.md"], docs_configuration name),
   ([base, cat, name, "docs", "api-reference.md"], docs_api_reference name),
   ([base, cat, name, "docs", "migration-guide.md"], docs_migration_guide name)]

/-- The filesystem produced by `generate_component` on an empty filesystem. -/
def componentState (name cat desc base today : String) : FS :=
  ⟨componentDirPaths base cat name, componentFiles name cat desc base today⟩

/-- The summary printed by `generate_component`. -/
def componentPrints (name cat base : String) : List String :=
  ["✅ Generated component: " ++ cat ++ "/" ++ name,
   "   Path: " ++ String.intercalate "/" [base, cat, name],
   "   Files: 15 files created"]

/-- A well-formed path segment: the list-of-segments filesystem model agrees
with Python `pathlib` only when each segment is nonempty, has no slash and is
not `.` or `..` (pathlib collapses those). -/
def validSeg (s : String) : Prop :=
  s ≠ "" ∧ '/' ∉ s.data ∧ s ≠ "." ∧ s ≠ ".."

instance (s : String) : Decidable (validSeg s) := by
  unfold validSeg; infer_instance

/-- The keyword entries of a rendered manifest, extracted line-wise: the
lines between `keywords:` and the next blank line (each still carrying its
`  - ` marker). -/
def keywordsSection (lines : List String) : List String :=
  ((lines.dropWhile (fun l => !(l == "keywords:"))).drop 1).takeWhile
    (fun l => !(l == ""))

/-- The fixed `api_compatibility` block of the manifest. -/
def api_compatibility_block : List String :=
  ["api_compatibility:",
   "  api_version: \"0.1.0\"",
   "  min_version: \"0.1.0\"",
   "  max_version: \"0.2.0\"",
   "  experimental: false"]

/-- The `provides:` block of the manifest: exactly three template files, each
tagged `target: Backend`. -/
def provides_block (name : String) : List String :=
  ["provides:",
   "  templates:",
   "    - name: \"handlers.rs.tera\"",
   "      path: \"handlers.rs.tera\"",
   "      description: \"" ++ pyTitle name ++ " request handlers\"",
   "      variables: []",
   "      target: Backend",
   "    - name: \"models.rs.tera\"",
   "      path: \"models.rs.tera\"",
   "      description: \"" ++ pyTitle name ++ " data models\"",
   "      variables: []",
   "      target: Backend",
   "    - name: \"middleware.rs.tera\"",
   "      path: \"middleware.rs.tera\"",
   "      description: \"" ++ pyTitle name ++ " middleware\"",
   "      variables: []",
   "      target: Backend",
   "  assets: []",
   "  hooks: []"]

/-- The paths of the files lying under the prefix `pre`, relative to it. -/
def relFilePaths (fs : FS) (pre : FsPath) : List FsPath :=
  fs.files.filterMap
    (fun e => if pre <+: e.1 then some (e.1.drop pre.length) else none)

/-- The directories lying under the prefix `pre`, relative to it. -/
def relDirPaths (fs : FS) (pre : FsPath) : List FsPath :=
  fs.dirs.filterMap
    (fun p => if pre <+: p then some (p.drop pre.length) else none)

/-- The filesystem after scaffolding two components of the same category in
sequence, starting from an empty filesystem and using the batch driver's
default descriptions. -/
def twoComponentState (n1 n2 cat base today : String) : FS :=
  ⟨componentDirPaths base cat n1 ++ (componentDirPaths base cat n2).drop 2,
   componentFiles n1 cat (default_description n1 cat) base today ++
     componentFiles n2 cat (default_description n2 cat) base today⟩

/-- The filesystem after scaffolding three components of the same category in
sequence, starting from an empty filesystem and using the batch driver's
default descriptions. -/
def threeComponentState (n1 n2 n3 cat base today : String) : FS :=
  ⟨componentDirPaths base cat n1 ++ (componentDirPaths base cat n2).drop 2 ++
     (componentDirPaths base cat n3).drop 2,
   componentFiles n1 cat (default_description n1 cat) base today ++
     componentFiles n2 cat (default_description n2 cat) base today ++
     componentFiles n3 cat (default_description n3 cat) base today⟩

theorem okBind (a : α) (f : α → Except ε β) :
    (Except.ok a : Except ε α) >>= f = f a := rfl

theorem errBind (e : ε) (f : α → Except ε β) :
    (Except.error e : Except ε α) >>= f = Except.error e := rfl

theorem append_ne_empty_right (a b : String) (h : b ≠ "") : a ++ b ≠ "" := by
  intro hc
  apply h
  apply String.ext_iff.mpr
  have hd : (a ++ b).data = ("" : String).data := congrArg String.data hc
  rw [String.data_append] at hd
  exact (List.append_eq_nil.mp hd).2

theorem append_ne_empty_left (a b : String) (h : a ≠ "") : a ++ b ≠ "" := by
  intro hc
  apply h
  apply String.ext_iff.mpr
  have hd : (a ++ b).data = ("" : String).data := congrArg String.data hc
  rw [String.data_append] at hd
  exact (List.append_eq_nil.mp hd).1

theorem joinLines_cons_cons_ne (a b : String) (ls : List String) :
    joinLines (a :: b :: ls) ≠ "" := by
  rw [show joinLines (a :: b :: ls) = a ++ "\n" ++ joinLines (b :: ls) from rfl]
  exact append_ne_empty_left _ _ (append_ne_empty_right _ _ (by decide))

theorem toString_fifteen : toString (15 : Nat) = "15" := rfl

/-- Evaluation of `generate_component` from an empty filesystem: it succeeds
and produces exactly the directories of `componentDirPaths`, the files of
`componentFiles` and the three summary lines. -/
theorem generate_component_empty_eval (name cat desc base today : String) :
    generate_component name cat desc base today FS.empty =
      Except.ok (componentState name cat desc base today,
        componentPrints name cat base) := by
  simp [generate_component, mkdirParents, prefixesOf, mkdirsAux, addDir,
    writeAll, writeFile, parentPath, setFile, FS.empty, okBind,
    componentState, componentFiles, componentDirPaths, componentPrints,
    toString_fifteen]


/-- Every file content produced by `generate_component` is nonempty. -/
theorem componentFiles_ne_empty (name cat desc base today : String) :
    ∀ e ∈ componentFiles name cat desc base today, e.2 ≠ "" := by
  intro e he
  simp only [componentFiles, List.mem_cons, List.not_mem_nil, or_false] at he
  rcases he with rfl | rfl | rfl | rfl | rfl | rfl | rfl | rfl | rfl | rfl |
    rfl | rfl | rfl | rfl | rfl
  all_goals
    first
      | exact joinLines_cons_cons_ne _ _ _
      | exact append_ne_empty_right _ _ (by decide)

/-- C1: for every valid (category, name) pair, `generate_component` creates
exactly the fifteen files of the §6 layout under
`<basePath>/<category>/<name>/` — each path exactly once, each with nonempty
content — and the printed summary reports that exact file count (15). -/
theorem claim1_generate_creates_fifteen_files
    (name cat desc base today : String)
    (hcat : cat ∈ categoryKeys) (hn : validSeg name) (hb : validSeg base) :
    ∃ s out,
      generate_component name cat desc base today FS.empty =
        Except.ok (s, out) ∧
      s.files.map Prod.fst = componentFilePaths base cat name ∧
      (componentFilePaths base cat name).Nodup ∧
      (∀ e ∈ s.files, e.2 ≠ "") ∧
      "   Files: 15 files created" ∈ out := by
  refine ⟨_, _, generate_component_empty_eval name cat desc base today,
    ?_, ?_, ?_, ?_⟩
  · simp [componentState, componentFiles, componentFilePaths]
  · simp [componentFilePaths]
  · exact componentFiles_ne_empty name cat desc base today
  · simp [componentPrints]

/-- Witness for C1 at a concrete input. -/
theorem claim1_witness :
    ("auth" ∈ categoryKeys) ∧ validSeg "jwt-authentication" ∧
    validSeg "components" ∧
    (∃ s out,
      generate_component "jwt-authentication" "auth" "JWT auth component"
          "components" "2026-01-01" FS.empty = Except.ok (s, out) ∧
      s.files.map Prod.fst =
        componentFilePaths "components" "auth" "jwt-authentication" ∧
      (componentFilePaths "components" "auth" "jwt-authentication").Nodup ∧
      (∀ e ∈ s.files, e.2 ≠ "") ∧
      "   Files: 15 files created" ∈ out) :=
  ⟨by decide, by decide, by decide,
    claim1_generate_creates_fifteen_files _ _ _ _ _ (by decide) (by decide)
      (by decide)⟩

/-- C3: re-running `generate_component` with the same name, category,
description, base path and date is idempotent — the first run from an empty
filesystem succeeds, and the second run on the resulting filesystem succeeds
with a byte-identical filesystem and the same summary. -/
theorem claim3_generate_idempotent (name cat desc base today : String)
    (hn : validSeg name) (hc : validSeg cat) (hb : validSeg base) :
    generate_component name cat desc base today FS.empty =
      Except.ok (componentState name cat desc base today,
        componentPrints name cat base) ∧
    generate_component name cat desc base today
        (componentState name cat desc base today) =
      Except.ok (componentState name cat desc base today,
        componentPrints name cat base) := by
  refine ⟨generate_component_empty_eval name cat desc base today, ?_⟩
  simp [generate_component, mkdirParents, prefixesOf, mkdirsAux, addDir,
    writeAll, writeFile, parentPath, setFile, okBind,
    componentState, componentFiles, componentDirPaths, componentPrints,
    toString_fifteen]

/-- Witness for C3 at a concrete input. -/
theorem claim3_witness :
    validSeg "jwt-authentication" ∧ validSeg "auth" ∧ validSeg "components" ∧
    (generate_component "jwt-authentication" "auth" "JWT auth component"
        "components" "2026-01-01" FS.empty =
      Except.ok
        (componentState "jwt-authentication" "auth" "JWT auth component"
          "components" "2026-01-01",
         componentPrints "jwt-authentication" "auth" "components") ∧
    generate_component "jwt-authentication" "auth" "JWT auth component"
        "components" "2026-01-01"
        (componentState "jwt-authentication" "auth" "JWT auth component"
          "components" "2026-01-01") =
      Except.ok
        (componentState "jwt-authentication" "auth" "JWT auth component"
          "components" "2026-01-01",
         componentPrints "jwt-authentication" "auth" "components")) :=
  ⟨by decide, by decide, by decide,
    claim3_generate_idempotent _ _ _ _ _ (by decide) (by decide) (by decide)⟩

/-- C10: `generate_component` itself performs no category validation — called
with a category outside the registry it still creates the full directory tree
and all fifteen files under `<basePath>/<category>/<name>/`. -/
theorem claim10_scaffolder_skips_category_validation
    (name cat desc base today : String) (hcat : cat ∉ categoryKeys) :
    ∃ s out,
      generate_component name cat desc base today FS.empty =
        Except.ok (s, out) ∧
      s.dirs = componentDirPaths base cat name ∧
      s.files.map Prod.fst = componentFilePaths base cat name := by
  refine ⟨_, _, generate_component_empty_eval name cat desc base today,
    rfl, ?_⟩
  simp [componentState, componentFiles, componentFilePaths]

/-- Witness for C10 at the unknown category `"nonexistent"`. -/
theorem claim10_witness :
    ("nonexistent" ∉ categoryKeys) ∧
    (∃ s out,
      generate_component "widget" "nonexistent" "d" "components" "2026-01-01"
          FS.empty = Except.ok (s, out) ∧
      s.dirs = componentDirPaths "components" "nonexistent" "widget" ∧
      s.files.map Prod.fst =
        componentFilePaths "components" "nonexistent" "widget") :=
  ⟨by decide,
    claim10_scaffolder_skips_category_validation _ _ _ _ _ (by decide)⟩

/-- C2: identifier forms are consistent across the rendered files of one
component: the handlers template and the models template type their structs
with the same PascalCase form of the name; the route segments in the handlers
template use the snake form of the same name; the README references the
component under `components/<category>/<name>` with the same slug that names
the component directory; the manifest's first line is `name: <slug>`.  In
particular, for `("jwt-authentication", "auth")` the handlers template
contains the identifier `JwtAuthenticationRequest` and the route segment
`jwt_authentication`, and the manifest's `name:` field is
`jwt-authentication`. -/
theorem claim2_identifier_forms_consistent (name cat desc : String) :
    ("pub struct " ++ pyReplaceChar (pyTitle name) '-' "" ++ "Request \x7b" ∈
        create_handlers_template_lines name cat) ∧
    ("pub struct " ++ pyReplaceChar (pyTitle name) '-' "" ++ " \x7b" ∈
        create_models_template_lines name cat) ∧
    ("        .route(\"/" ++ pyReplaceChar name '-' "_" ++ "\", post(create_" ++
        pyReplaceChar name '-' "_" ++ "))" ∈
        create_handlers_template_lines name cat) ∧
    ((create_component_manifest_yaml_lines name cat desc "rust-form").head? =
        some ("name: " ++ name)) ∧
    ("  " ++ name ++ ": \"path:./components/" ++ cat ++ "/" ++ name ++ "\"" ∈
        create_readme_lines name cat desc) ∧
    ("pub struct JwtAuthenticationRequest \x7b" ∈
        create_handlers_template_lines "jwt-authentication" "auth") ∧
    ("        .route(\"/jwt_authentication\", post(create_jwt_authentication))" ∈
        create_handlers_template_lines "jwt-authentication" "auth") ∧
    ((create_component_manifest_yaml_lines "jwt-authentication" "auth"
        "JWT auth component" "rust-form").head? =
      some "name: jwt-authentication") := by
  refine ⟨?_, ?_, ?_, ?_, ?_, ?_, ?_, ?_⟩
  · simp [create_handlers_template_lines]
  · simp [create_models_template_lines]
  · simp [create_handlers_template_lines]
  · simp [create_component_manifest_yaml_lines]
  · simp [create_readme_lines]
  · decide
  · decide
  · decide

/-- C4: with a category outside the registry, both the single-generation form
and the batch form of the command surface print an error naming the unknown
category together with the valid set, return normally, and leave the
filesystem unchanged. -/
theorem claim4_unknown_category_rejected
    (cat nm namesArg today : String) (fs : FS)
    (hcat : cat ∉ categoryKeys) (hb : cat ≠ "batch")
    (hl : cat ≠ "list-categories") :
    pyMain ["component_generator.py", cat, nm] today fs =
      Except.ok (fs, unknown_category_lines cat) ∧
    pyMain ["component_generator.py", "batch", cat, namesArg] today fs =
      Except.ok (fs, unknown_category_lines cat) ∧
    "Error: Unknown category \x27" ++ cat ++ "\x27" ∈
      unknown_category_lines cat ∧
    "Available categories: auth, payments, dashboard, ecommerce, communication, cms, ui, integrations" ∈
      unknown_category_lines cat := by
  refine ⟨?_, ?_, ?_, ?_⟩
  · simp [pyMain, hcat, hb, hl]
  · simp [pyMain, hcat]
  · simp [unknown_category_lines]
  · rw [show ("Available categories: auth, payments, dashboard, ecommerce, communication, cms, ui, integrations" : String) =
        "Available categories: " ++ String.intercalate ", " categoryKeys from rfl]
    simp [unknown_category_lines]

/-- Witness for C4 at the unknown category `"nonexistent"`. -/
theorem claim4_witness :
    ("nonexistent" ∉ categoryKeys) ∧ ("nonexistent" : String) ≠ "batch" ∧
    ("nonexistent" : String) ≠ "list-categories" ∧
    (pyMain ["component_generator.py", "nonexistent", "x"] "2026-01-01"
        FS.empty = Except.ok (FS.empty, unknown_category_lines "nonexistent") ∧
    pyMain ["component_generator.py", "batch", "nonexistent", "a,b"]
        "2026-01-01" FS.empty =
      Except.ok (FS.empty, unknown_category_lines "nonexistent") ∧
    "Error: Unknown category \x27" ++ "nonexistent" ++ "\x27" ∈
      unknown_category_lines "nonexistent" ∧
    "Available categories: auth, payments, dashboard, ecommerce, communication, cms, ui, integrations" ∈
      unknown_category_lines "nonexistent") :=
  ⟨by decide, by decide, by decide,
    claim4_unknown_category_rejected _ _ _ _ _ (by decide) (by decide)
      (by decide)⟩

/-- Counterexample to C6 as stated: the batch form given a category but no
comma-separated names list (`batch auth`, three argv entries in total) does
not print usage text and return normally — `sys.argv[3]` is accessed before
any length or category check and the run fails with an `IndexError`. -/
theorem claim6_counterexample :
    pyMain ["component_generator.py", "batch", "auth"] "2026-01-01" FS.empty =
      Except.error "IndexError: list index out of range" := rfl

/-- C6 as amended: for every invocation with fewer than three command-line
tokens, the command surface prints the usage text together with the category
registry listing, returns normally and writes nothing; the batch form with a
category but no names list is excluded, since it raises `IndexError`. -/
theorem claim6_amended_usage_on_missing_args
    (argv : List String) (today : String) (fs : FS) (h : argv.length < 3) :
    pyMain argv today fs = Except.ok (fs, usage_lines) ∧
    "Available categories:" ∈ usage_lines ∧
    (∀ ci ∈ COMPONENT_CATEGORIES,
      "  " ++ ci.1 ++ ": " ++ ci.2.description ∈ usage_lines) := by
  refine ⟨?_, ?_, ?_⟩
  · simp [pyMain, h]
  · decide
  · decide

/-- Witness for the amended C6: `python component_generator.py batch`. -/
theorem claim6_witness :
    (["component_generator.py", "batch"] : List String).length < 3 ∧
    (pyMain ["component_generator.py", "batch"] "2026-01-01" FS.empty =
      Except.ok (FS.empty, usage_lines) ∧
    "Available categories:" ∈ usage_lines ∧
    (∀ ci ∈ COMPONENT_CATEGORIES,
      "  " ++ ci.1 ++ ": " ++ ci.2.description ∈ usage_lines)) :=
  ⟨by decide,
    claim6_amended_usage_on_missing_args _ _ _ (by decide)⟩

/-- C9: the `list-categories` output lists every registered category key
exactly once (as the `\nKEY:` header produced by the source's literal `\\n`),
each with a nonempty description and a nonempty example list.  The dedicated
branch is only reached with a third argv token, since `main` prints usage
whenever fewer than three tokens are given. -/
theorem claim9_list_categories_output
    (arg today : String) (fs : FS) :
    pyMain ["component_generator.py", "list-categories", arg] today fs =
      Except.ok (fs, list_categories_lines) ∧
    (∀ ci ∈ COMPONENT_CATEGORIES,
      list_categories_lines.count ("\\n" ++ pyUpper ci.1 ++ ":") = 1 ∧
      "  Description: " ++ ci.2.description ∈ list_categories_lines ∧
      ci.2.description ≠ "" ∧ ci.2.examples ≠ []) := by
  refine ⟨?_, ?_⟩
  · simp [pyMain]
  · decide


theorem ne_of_ne_head (s t : String) (c d : Char)
    (hs : s.data.head? = some c) (ht : t.data.head? = some d) (h : c ≠ d) :
    s ≠ t := by
  intro he
  subst he
  exact h (Option.some.inj (hs.symm.trans ht))

theorem ne_empty_of_head (s : String) (c : Char)
    (hs : s.data.head? = some c) : s ≠ "" := by
  intro he
  subst he
  simp at hs



/-- Counterexample to C5 as stated: the rendered manifest's keyword list has
three entries — the category plus the two fixed keywords `rust-form` and
`component` — not the four entries that "three fixed keywords plus the
category" would give. -/
theorem claim5_counterexample :
    keywordsSection (create_component_manifest_yaml_lines "jwt-authentication"
        "auth" "JWT auth component" "rust-form") =
      ["  - auth", "  - rust-form", "  - component"] ∧
    (keywordsSection (create_component_manifest_yaml_lines "jwt-authentication"
        "auth" "JWT auth component" "rust-form")).length ≠ 4 := by
  decide

/-- C5 as amended: for every (name, category, description) the manifest
contains a keywords list consisting of the category plus the two fixed
keywords `rust-form` and `component`, along with the name (first line), the
semantic version "1.0.0", the description, a homepage URL built from the
name, the fixed API-compatibility block, an empty dependency mapping, and a
`provides` block listing exactly three template files each tagged with a
Backend target. -/
theorem claim5_amended_manifest_contents (n c d : String) :
    keywordsSection (create_component_manifest_yaml_lines n c d "rust-form") =
      ["  - " ++ c, "  - rust-form", "  - component"] ∧
    (create_component_manifest_yaml_lines n c d "rust-form").head? =
      some ("name: " ++ n) ∧
    "version: \"1.0.0\"" ∈
      create_component_manifest_yaml_lines n c d "rust-form" ∧
    "description: \"" ++ d ++ "\"" ∈
      create_component_manifest_yaml_lines n c d "rust-form" ∧
    "homepage: \"https://github.com/rust-form/" ++ n ++ "\"" ∈
      create_component_manifest_yaml_lines n c d "rust-form" ∧
    "dependencies: \x7b\x7d" ∈
      create_component_manifest_yaml_lines n c d "rust-form" ∧
    api_compatibility_block <:+:
      create_component_manifest_yaml_lines n c d "rust-form" ∧
    (∃ pre, create_component_manifest_yaml_lines n c d "rust-form" =
      pre ++ provides_block n) := by
  refine ⟨?_, ?_, ?_, ?_, ?_, ?_, ?_, ?_⟩
  · have h1 : ("name: " ++ n) ≠ "keywords:" :=
      ne_of_ne_head _ _ 'n' 'k' rfl rfl (by decide)
    have h3 : ("description: \"" ++ d ++ "\"") ≠ "keywords:" :=
      ne_of_ne_head _ _ 'd' 'k' rfl rfl (by decide)
    have h5 : ("homepage: \"https://github.com/rust-form/" ++ n ++ "\"") ≠
        "keywords:" :=
      ne_of_ne_head _ _ 'h' 'k' rfl rfl (by decide)
    have g1 : ("  - " ++ c) ≠ "" := ne_empty_of_head _ ' ' rfl
    simp [keywordsSection, create_component_manifest_yaml_lines, h1, h3, h5, g1]
  · simp [create_component_manifest_yaml_lines]
  · simp [create_component_manifest_yaml_lines]
  · simp [create_component_manifest_yaml_lines]
  · simp [create_component_manifest_yaml_lines]
  · simp [create_component_manifest_yaml_lines]
  · exact ⟨(create_component_manifest_yaml_lines n c d "rust-form").take 10,
      (create_component_manifest_yaml_lines n c d "rust-form").drop 15,
      by simp [create_component_manifest_yaml_lines, api_compatibility_block]⟩
  · exact ⟨(create_component_manifest_yaml_lines n c d "rust-form").take 23,
      by simp [create_component_manifest_yaml_lines, provides_block]⟩



/-- C8: the relative layout of directories and files under
`<basePath>/<category>/<name>/` is identical for any two categories — the
category never affects which files or directories are created. -/
theorem claim8_layout_independent_of_category
    (name desc base today cat1 cat2 : String) (s1 s2 : FS)
    (o1 o2 : List String)
    (h1 : generate_component name cat1 desc base today FS.empty =
      Except.ok (s1, o1))
    (h2 : generate_component name cat2 desc base today FS.empty =
      Except.ok (s2, o2)) :
    relFilePaths s1 [base, cat1, name] = relFilePaths s2 [base, cat2, name] ∧
    relDirPaths s1 [base, cat1, name] = relDirPaths s2 [base, cat2, name] := by
  rw [generate_component_empty_eval] at h1 h2
  obtain ⟨rfl, rfl⟩ := Prod.mk.inj (Except.ok.inj h1)
  obtain ⟨rfl, rfl⟩ := Prod.mk.inj (Except.ok.inj h2)
  constructor
  · simp [relFilePaths, componentState, componentFiles, List.cons_prefix_cons]
  · simp [relDirPaths, componentState, componentDirPaths, List.cons_prefix_cons]

/-- Witness for C8 at the concrete categories `auth` and `payments`. -/
theorem claim8_witness :
    (generate_component "widget" "auth" "d" "components" "2026-01-01"
        FS.empty =
      Except.ok (componentState "widget" "auth" "d" "components" "2026-01-01",
        componentPrints "widget" "auth" "components")) ∧
    (generate_component "widget" "payments" "d" "components" "2026-01-01"
        FS.empty =
      Except.ok
        (componentState "widget" "payments" "d" "components" "2026-01-01",
         componentPrints "widget" "payments" "components")) ∧
    (relFilePaths
        (componentState "widget" "auth" "d" "components" "2026-01-01")
        ["components", "auth", "widget"] =
      relFilePaths
        (componentState "widget" "payments" "d" "components" "2026-01-01")
        ["components", "payments", "widget"] ∧
    relDirPaths (componentState "widget" "auth" "d" "components" "2026-01-01")
        ["components", "auth", "widget"] =
      relDirPaths
        (componentState "widget" "payments" "d" "components" "2026-01-01")
        ["components", "payments", "widget"]) :=
  ⟨generate_component_empty_eval "widget" "auth" "d" "components" "2026-01-01",
   generate_component_empty_eval "widget" "payments" "d" "components"
     "2026-01-01",
   claim8_layout_independent_of_category "widget" "d" "components"
     "2026-01-01" "auth" "payments" _ _ _ _
     (generate_component_empty_eval "widget" "auth" "d" "components"
       "2026-01-01")
     (generate_component_empty_eval "widget" "payments" "d" "components"
       "2026-01-01")⟩



theorem toString_three : toString (3 : Nat) = "3" := rfl

set_option maxHeartbeats 3200000 in
/-- C7: batch generation over `["a", "b", "c"]` invokes the scaffolder
exactly once per name, in list order, with the default generated
description, and produces three independent component trees, each with the
same relative layout as a single-component run of the same name. -/
theorem claim7_batch_is_sequential_single_runs
    (cat base today : String) (fs3 : FS) (out : List String)
    (h : generate_category_batch cat ["a", "b", "c"] base today FS.empty =
      Except.ok (fs3, out)) :
    ∃ s1 o1 s2 o2 s3 o3,
      generate_component "a" cat (default_description "a" cat) base today
          FS.empty = Except.ok (s1, o1) ∧
      generate_component "b" cat (default_description "b" cat) base today
          s1 = Except.ok (s2, o2) ∧
      generate_component "c" cat (default_description "c" cat) base today
          s2 = Except.ok (s3, o3) ∧
      fs3 = s3 ∧
      out = ("🚀 Generating 3 components for category: " ++ cat) ::
        (o1 ++ o2 ++ o3) ++
        ["✅ Completed " ++ cat ++ " category - 3 components generated"] ∧
      (∀ nm ∈ (["a", "b", "c"] : List String), ∃ s o,
        generate_component nm cat (default_description nm cat) base today
            FS.empty = Except.ok (s, o) ∧
        relFilePaths fs3 [base, cat, nm] = relFilePaths s [base, cat, nm] ∧
        relDirPaths fs3 [base, cat, nm] = relDirPaths s [base, cat, nm]) := by
  have e1 := generate_component_empty_eval "a" cat
    (default_description "a" cat) base today
  have e2 : generate_component "b" cat (default_description "b" cat) base
      today (componentState "a" cat (default_description "a" cat) base
        today) =
      Except.ok (twoComponentState "a" "b" cat base today,
        componentPrints "b" cat base) := by
    simp [generate_component, mkdirParents, prefixesOf, mkdirsAux, addDir,
      writeAll, writeFile, parentPath, setFile, okBind,
      componentState, twoComponentState, componentFiles, componentDirPaths,
      componentPrints, toString_fifteen]
  have e3 : generate_component "c" cat (default_description "c" cat) base
      today (twoComponentState "a" "b" cat base today) =
      Except.ok (threeComponentState "a" "b" "c" cat base today,
        componentPrints "c" cat base) := by
    simp [generate_component, mkdirParents, prefixesOf, mkdirsAux, addDir,
      writeAll, writeFile, parentPath, setFile, okBind,
      twoComponentState, threeComponentState, componentFiles,
      componentDirPaths, componentPrints, toString_fifteen]
  have hb : generate_category_batch cat ["a", "b", "c"] base today FS.empty =
      Except.ok (threeComponentState "a" "b" "c" cat base today,
        ("🚀 Generating 3 components for category: " ++ cat) ::
          (componentPrints "a" cat base ++ componentPrints "b" cat base ++
            componentPrints "c" cat base) ++
          ["✅ Completed " ++ cat ++ " category - 3 components generated"]) := by
    have hfold : ∀ x : String,
        x ++ " category - " ++ "3" ++ " components generated" =
          x ++ " category - 3 components generated" := by
      intro x
      rw [String.append_assoc, String.append_assoc]
      exact congrArg (fun y => x ++ y) rfl
    simp [generate_category_batch, batchLoop, okBind, e1, e2, e3,
      toString_three]
    exact hfold ("✅ Completed " ++ cat)
  rw [hb] at h
  obtain ⟨rfl, rfl⟩ := Prod.mk.inj (Except.ok.inj h)
  refine ⟨_, _, _, _, _, _, e1, e2, e3, rfl, rfl, ?_⟩
  intro nm hnm
  simp only [List.mem_cons, List.not_mem_nil, or_false] at hnm
  rcases hnm with rfl | rfl | rfl
  · refine ⟨_, _, generate_component_empty_eval "a" cat
      (default_description "a" cat) base today, ?_, ?_⟩
    · simp [relFilePaths, threeComponentState, componentState,
        componentFiles, List.cons_prefix_cons]
    · simp [relDirPaths, threeComponentState, componentState,
        componentDirPaths, List.cons_prefix_cons]
  · refine ⟨_, _, generate_component_empty_eval "b" cat
      (default_description "b" cat) base today, ?_, ?_⟩
    · simp [relFilePaths, threeComponentState, componentState,
        componentFiles, List.cons_prefix_cons]
    · simp [relDirPaths, threeComponentState, componentState,
        componentDirPaths, List.cons_prefix_cons]
  · refine ⟨_, _, generate_component_empty_eval "c" cat
      (default_description "c" cat) base today, ?_, ?_⟩
    · simp [relFilePaths, threeComponentState, componentState,
        componentFiles, List.cons_prefix_cons]
    · simp [relDirPaths, threeComponentState, componentState,
        componentDirPaths, List.cons_prefix_cons]

/-- Witness for C7: the batch `["a", "b", "c"]` under the category `auth`. -/
theorem claim7_witness :
    ∃ fs3 out,
      generate_category_batch "auth" ["a", "b", "c"] "components"
          "2026-01-01" FS.empty = Except.ok (fs3, out) ∧
      ∃ s1 o1 s2 o2 s3 o3,
        generate_component "a" "auth" (default_description "a" "auth")
            "components" "2026-01-01" FS.empty = Except.ok (s1, o1) ∧
        generate_component "b" "auth" (default_description "b" "auth")
            "components" "2026-01-01" s1 = Except.ok (s2, o2) ∧
        generate_component "c" "auth" (default_description "c" "auth")
            "components" "2026-01-01" s2 = Except.ok (s3, o3) ∧
        fs3 = s3 ∧
        out = ("🚀 Generating 3 components for category: " ++ "auth") ::
          (o1 ++ o2 ++ o3) ++
          ["✅ Completed " ++ "auth" ++ " category - 3 components generated"] ∧
        (∀ nm ∈ (["a", "b", "c"] : List String), ∃ s o,
          generate_component nm "auth" (default_description nm "auth")
              "components" "2026-01-01" FS.empty = Except.ok (s, o) ∧
          relFilePaths fs3 ["components", "auth", nm] =
            relFilePaths s ["components", "auth", nm] ∧
          relDirPaths fs3 ["components", "auth", nm] =
            relDirPaths s ["components", "auth", nm]) := by
  obtain ⟨fs3, out, h⟩ :
      ∃ fs3 out, generate_category_batch "auth" ["a", "b", "c"] "components"
        "2026-01-01" FS.empty = Except.ok (fs3, out) := ⟨_, _, rfl⟩
  exact ⟨fs3, out, h,
    claim7_batch_is_sequential_single_runs "auth" "components" "2026-01-01"
      fs3 out h⟩

end RustForm

namespace RustForm

theorem pyTitle_jwt :
    pyTitle "jwt-authentication" = "Jwt-Authentication" := by decide

theorem pyTitle_replace_jwt :
    pyReplaceChar (pyTitle "jwt-authentication") '-' "" = "JwtAuthentication" := by
  decide

end RustForm
